import Mathlib

/-! # Presentation pane request handling (SessionPresentation.cpp)

A shallow embedding of `src/cpp/session/modules/presentation/SessionPresentation.cpp`:
the byte-range handler `handleRangeRequest`, the pre-processing step `knitSlides`,
the router `handlePresentationPaneRequest` and the activation entry point
`rs_showPresentation`.

Conventions of the embedding.

* A C++ `std::string` is a Lean `String`; one Lean character stands for one C++ `char`,
  so `String.length` is `std::string::length` and slicing is done on the character list.
* `size_t` values are natural numbers below `2 ^ 64`; subtraction wraps modulo `2 ^ 64`.
* A C++ exception that escapes a function is an `Except.error` result.
* Collaborators whose code lives in other translation units (file system, R, the http
  library, the slide parser and renderer) are fields of an environment record `Env`,
  indexed by a type `W` of states of the outside world.
* Calls to collaborators that the properties speak about are recorded in a ghost list of
  `Call`s, oldest first.
-/

namespace Presentation

/-! ## Plain data -/

/-- A `core::FilePath`, identified with its absolute path string. -/
structure FilePath where
  path : String
deriving DecidableEq, Repr

/-- The accessor `FilePath::absolutePath()`. -/
def FilePath.absolutePath (p : FilePath) : String := p.path

/-- The test `FilePath::empty()`. -/
def FilePath.empty (p : FilePath) : Bool := p.path.data.isEmpty

/-- A `core::Error`; only its `summary()` is observed by this module. -/
structure Error where
  summary : String
deriving DecidableEq, Repr

/-- C++ exceptions that can escape the handlers. -/
inductive CppException where
  | out_of_range
deriving DecidableEq, Repr

deriving instance DecidableEq for Except

/-- An `http::Request`: the request uri and the header fields, in order. -/
structure Request where
  uri : String
  headers : List (String × String)
deriving DecidableEq, Repr

/-- Modelled from the spec: `http::Request::headerValue` is not under src; the value of the
first header field of that name, and the empty string when there is none ("if the request
carries a `Range` header"). -/
def Request.headerValue (r : Request) (name : String) : String :=
  match r.headers.find? (fun h => h.1 == name) with
  | some h => h.2
  | none => ""

/-- An `http::Response` as this module sees it: the status code, the header fields in the
order they were added, and the payload handed to `setBody` (before any transfer encoding
the http library applies when it writes the response). -/
structure Response where
  statusCode : Nat
  headers : List (String × String)
  body : String
deriving DecidableEq, Repr

namespace http.status

def Ok : Nat := 200
def PartialContent : Nat := 206
def NotFound : Nat := 404
def RangeNotSatisfiable : Nat := 416
def InternalServerError : Nat := 500

end http.status

/-- The constant `http::kGzipEncoding`. -/
def kGzipEncoding : String := "gzip"

/-! ### Response setters

Modelled from the spec: `http::Response` is not under src. Each setter records what the
handler hands to it: a status code, a header field appended to the list, a body. -/

/-- Modelled from the spec: `Response::setStatusCode` is not under src; it records the
status code. -/
def Response.setStatusCode (r : Response) (code : Nat) : Response :=
  { r with statusCode := code }

/-- Modelled from the spec: `Response::addHeader` is not under src; it appends one header
field. -/
def Response.addHeader (r : Response) (name value : String) : Response :=
  { r with headers := r.headers ++ [(name, value)] }

/-- Modelled from the spec: `Response::setContentType` is not under src; it records a
`Content-Type` header field. -/
def Response.setContentType (r : Response) (contentType : String) : Response :=
  r.addHeader "Content-Type" contentType

/-- Modelled from the spec: `Response::setContentEncoding` is not under src; it records a
`Content-Encoding` header field ("offer content compression when the requester accepts
it"). -/
def Response.setContentEncoding (r : Response) (encoding : String) : Response :=
  r.addHeader "Content-Encoding" encoding

/-- Modelled from the spec: `Response::setBody(const std::string&)` is not under src; it
records the body. -/
def Response.setBody (r : Response) (body : String) : Response :=
  { r with body := body }

/-- Modelled from the spec: `Response::setError(int, const std::string&)` is not under src;
the response gets the status code and carries the human-readable message. -/
def Response.setError (r : Response) (code : Nat) (message : String) : Response :=
  (r.setStatusCode code).setBody message

/-! ## size_t arithmetic -/

/-- Number of values of `size_t`. -/
def sizeMod : Nat := 2 ^ 64

/-- The constant `const size_t kNone = -1;` of `handleRangeRequest`. -/
def kNone : Nat := sizeMod - 1

/-- Subtraction `a - b` on `size_t`. -/
def sizeSub (a b : Nat) : Nat := (a % sizeMod + (sizeMod - b % sizeMod)) % sizeMod

/-! ## The regular expression `bytes=(\d*)\-(\d*)` -/

/-- Removes `pre` from the front of `s`, when it is there. -/
def dropLiteral : List Char → List Char → Option (List Char)
  | [], s => some s
  | _ :: _, [] => none
  | p :: ps, c :: cs => if p = c then dropLiteral ps cs else none

/-- The call `boost::regex_match(range, match, re)` for `re = "bytes=(\\d*)\\-(\\d*)"`: the
whole of `range` has to match, and the result holds the two captures `match[1]` and
`match[2]`. -/
def regex_match (range : String) : Option (String × String) :=
  match dropLiteral "bytes=".data range.data with
  | none => none
  | some rest =>
    match rest.dropWhile Char.isDigit with
    | '-' :: d2 =>
      if d2.all Char.isDigit then some (String.mk (rest.takeWhile Char.isDigit), String.mk d2)
      else none
    | _ => none

/-- What the regular expression `bytes=(\d*)\-(\d*)` denotes: the text `bytes=`, a possibly
empty run of digits, a minus sign, a possibly empty run of digits, and nothing else. -/
def MatchesRangePattern (range : String) : Prop :=
  ∃ d1 d2 : List Char, (∀ c ∈ d1, c.isDigit = true) ∧ (∀ c ∈ d2, c.isDigit = true) ∧
    range.data = "bytes=".data ++ d1 ++ '-' :: d2

/-- Decimal value of a run of digits. -/
def decimalValue (ds : List Char) : Nat :=
  ds.foldl (fun acc c => 10 * acc + (c.toNat - 48)) 0

/-- Modelled from the spec: `safe_convert::stringTo<size_t>` is not under src. The decimal
value of the capture; the default when the side is absent (empty capture) or when the
text is not a number that fits `size_t`. -/
def stringTo (str : String) (defaultValue : Nat) : Nat :=
  if str.data.isEmpty then defaultValue
  else if str.data.all Char.isDigit ∧ decimalValue str.data < sizeMod then decimalValue str.data
  else defaultValue

/-- The member `std::string::substr(pos, n)`: throws `std::out_of_range` when
`pos > size()`, otherwise the characters from `pos` on, at most `n` of them. -/
def substr (s : String) (pos n : Nat) : Except CppException String :=
  if s.length < pos then .error .out_of_range
  else .ok (String.mk ((s.data.drop pos).take n))

/-- Lines 170-183 of `handleRangeRequest`: the pair `(begin, end)` after the two
`kNone` adjustments, from the captures and `total = contents.length()`. -/
def byteRange (m1 m2 : String) (total : Nat) : Nat × Nat :=
  let begin_ := stringTo m1 kNone
  let end_ := stringTo m2 kNone
  let end_ := if end_ = kNone then sizeSub total 1 else end_
  if begin_ = kNone then (sizeSub total end_, sizeSub total 1) else (begin_, end_)

/-- The text `boost::str(fmt % begin % end % contents.length())` for
`fmt = "bytes %1%-%2%/%3%"`. -/
def contentRangeValue (begin_ end_ total : Nat) : String :=
  "bytes " ++ toString begin_ ++ "-" ++ toString end_ ++ "/" ++ toString total

/-- The text `boost::str(fmt % contents.length())` for `fmt = "bytes */%1%"`. -/
def unsatisfiedRangeValue (total : Nat) : String :=
  "bytes */" ++ toString total

/-! ## Collaborators -/

/-- The fields of `core::system::ProcessOptions` this module sets. -/
structure ProcessOptions where
  workingDir : FilePath
deriving DecidableEq, Repr

/-- A `core::system::ProcessResult`. -/
structure ProcessResult where
  exitStatus : Int
  stdOut : String
  stdErr : String
deriving DecidableEq, Repr

/-- The constant `EXIT_SUCCESS`. -/
def EXIT_SUCCESS : Int := 0

/-- What this module reads of a parsed `presentation::SlideDeck`. -/
structure SlideDeck where
  title : String
  preamble : String
  source : String
deriving DecidableEq, Repr

/-- The four out-parameters of `presentation::renderSlides`. -/
structure RenderedSlides where
  slides : String
  revealConfig : String
  initCommands : String
  slideCommands : String
deriving DecidableEq, Repr

/-- The collaborators of the module, none of them under src. `W` is the type of states of
the outside world (the disk, the R session); only `runProgram` changes it. -/
structure Env (W : Type) where
  /-- value of `session::options().programMode()` -/
  programMode : String
  /-- value of `session::options().rResourcesPath()` -/
  rResourcesPath : FilePath
  /-- value of `session::options().mathjaxPath()` -/
  mathjaxPath : FilePath
  /-- value of `projects::projectContext().defaultEncoding()` -/
  defaultEncoding : String
  /-- member `FilePath::complete` -/
  complete : FilePath → String → FilePath
  /-- member `FilePath::childPath` -/
  childPath : FilePath → String → FilePath
  /-- member `FilePath::parent` -/
  parent : FilePath → FilePath
  /-- member `FilePath::filename` -/
  filename : FilePath → String
  /-- member `FilePath::mimeContentType` -/
  mimeContentType : FilePath → String
  /-- member `FilePath::exists` -/
  fileExists : W → FilePath → Bool
  /-- function `core::readStringFromFile` -/
  readStringFromFile : W → FilePath → Except Error String
  /-- function `core::string_utils::utf8ToSystem` -/
  utf8ToSystem : String → String
  /-- function `core::system::runProgram`; the subprocess may change the world -/
  runProgram : W → String → List String → String → ProcessOptions → Except Error ProcessResult × W
  /-- function `module_context::rScriptPath` -/
  rScriptPath : W → Except Error FilePath
  /-- call `r::exec::RFunction(name).call(&bool)` -/
  callRFunction : W → String → Except Error Bool
  /-- function `http::util::pathAfterPrefix` -/
  pathAfterPrefix : Request → String → String
  /-- member `http::Request::acceptsEncoding` -/
  acceptsEncoding : Request → String → Bool
  /-- member `http::Response::setFile(filePath, request)` -/
  setFile : W → FilePath → Request → Response → Response
  /-- member `http::Response::setNoCacheHeaders` -/
  setNoCacheHeaders : Response → Response
  /-- member `http::Response::setError(const Error&)` -/
  setErrorOf : Error → Response → Response
  /-- the filtered body of `setBody(text, text::TemplateFilter(vars))` -/
  templateFilter : List (String × String) → String → String
  /-- member `SlideDeck::readSlides` -/
  readSlides : W → FilePath → Except Error SlideDeck
  /-- function `presentation::renderSlides` -/
  renderSlides : SlideDeck → Except Error RenderedSlides
  /-- function `module_context::resourceFileAsString` -/
  resourceFileAsString : String → String
  /-- function `markdown::isMathJaxRequired` -/
  isMathJaxRequired : String → Bool

/-- Calls to collaborators (and to `handleRangeRequest`), as recorded in the ghost log. -/
inductive Call where
  | rFunction (name : String)
  | logError (e : Error)
  | runProgram (program : String) (args : List String) (input : String) (options : ProcessOptions)
  | readSlides (file : FilePath)
  | renderSlides (deck : SlideDeck)
  | handleRangeRequest (targetFile : FilePath)
  | setFile (file : FilePath)
deriving DecidableEq, Repr

/-- Whether a logged call is a `core::system::runProgram`. -/
def Call.isRunProgram : Call → Bool
  | .runProgram _ _ _ _ => true
  | _ => false

/-- Whether a logged call is a `handleRangeRequest`. -/
def Call.isHandleRangeRequest : Call → Bool
  | .handleRangeRequest _ => true
  | _ => false

/-- Whether a logged call serves a file (`setFile` or `handleRangeRequest`). -/
def Call.isFileServing : Call → Bool
  | .handleRangeRequest _ => true
  | .setFile _ => true
  | _ => false

/-! ## handleRangeRequest -/

/-- The function `handleRangeRequest(targetFile, request, pResponse)` (lines 147-208). The
result is the response as left in `*pResponse`, or the exception thrown by `substr`. -/
def handleRangeRequest {W : Type} (env : Env W) (w : W) (targetFile : FilePath)
    (request : Request) (pResponse : Response) : Except CppException Response :=
  -- read the file in from disk
  let read := env.readStringFromFile w targetFile
  let contents : String := match read with
    | .ok s => s
    | .error _ => ""
  let r1 : Response := match read with
    | .ok _ => pResponse
    | .error e => env.setErrorOf e pResponse
  -- set content type
  let r2 := r1.setContentType (env.mimeContentType targetFile)
  -- parse the range field
  let range := request.headerValue "Range"
  match regex_match range with
  | some m =>
    -- specify partial content
    let r3 := r2.setStatusCode http.status.PartialContent
    -- determine the byte range
    let be := byteRange m.1 m.2 contents.length
    -- set the byte range
    let r4 := r3.addHeader "Accept-Ranges" "bytes"
    let r5 := r4.addHeader "Content-Range" (contentRangeValue be.1 be.2 contents.length)
    -- always attempt gzip
    let r6 := if env.acceptsEncoding request kGzipEncoding then r5.setContentEncoding kGzipEncoding
      else r5
    -- set body
    if be.1 = 0 ∧ be.2 = sizeSub contents.length 1 then .ok (r6.setBody contents)
    else
      match substr contents be.1 (sizeSub be.2 be.1) with
      | .ok slice => .ok (r6.setBody slice)
      | .error e => .error e
  | none =>
    let r3 := r2.setStatusCode http.status.RangeNotSatisfiable
    .ok (r3.addHeader "Content-Range" (unsatisfiedRangeValue contents.length))

/-! ## knitSlides -/

/-- The function `hasKnitrVersion1()` (lines 211-218), with the `LOG_ERROR` it performs. -/
def hasKnitrVersion1 {W : Type} (env : Env W) (w : W) : Bool × List Call :=
  match env.callRFunction w ".rs.hasKnitrVersion1" with
  | .error e => (false, [.rFunction ".rs.hasKnitrVersion1", .logError e])
  | .ok hasVersion => (hasVersion, [.rFunction ".rs.hasKnitrVersion1"])

/-- Result of `knitSlides`: the returned flag, `*pErrMsg`, the world and the calls made. -/
structure KnitOutcome (W : Type) where
  ok : Bool
  errMsg : String
  world : W
  calls : List Call

/-- The R command line built in `knitSlides` by `boost::format` (`%1%` the encoding, `%2%`
the file name). -/
def knitCommand (encoding filename : String) : String :=
  "library(knitr); " ++
  "opts_chunk$set(cache=TRUE,     " ++
  "               results='hide', " ++
  "               tidy=FALSE,     " ++
  "               comment=NA);    " ++
  "knit('" ++ filename ++ "', encoding='" ++ encoding ++ "');"

/-- The function `knitSlides(slidesRmd, pErrMsg)` (lines 220-280); `errMsg` is the value of
`*pErrMsg` on entry. -/
def knitSlides {W : Type} (env : Env W) (w : W) (slidesRmd : FilePath) (errMsg : String) :
    KnitOutcome W :=
  -- R binary
  match env.rScriptPath w with
  | .error error => { ok := false, errMsg := error.summary, world := w, calls := [] }
  | .ok rProgramPath =>
    -- confirm correct version of knitr
    let hasVersion := hasKnitrVersion1 env w
    if !hasVersion.1 then
      { ok := false, errMsg := "knitr version 1.0 or greater is required for presentations",
        world := w, calls := hasVersion.2 }
    else
      -- args
      let cmd := knitCommand env.defaultEncoding (env.filename slidesRmd)
      let args := ["--silent", "--no-save", "--no-restore", "-e", cmd]
      -- options
      let options : ProcessOptions := { workingDir := env.parent slidesRmd }
      -- run knit
      let program := env.utf8ToSystem rProgramPath.absolutePath
      let run := env.runProgram w program args "" options
      let calls := hasVersion.2 ++ [.runProgram program args "" options]
      match run.1 with
      | .error error => { ok := false, errMsg := error.summary, world := run.2, calls := calls }
      | .ok result =>
        if result.exitStatus ≠ EXIT_SUCCESS then
          { ok := false, errMsg := "Error occurred during knit: " ++ result.stdErr,
            world := run.2, calls := calls }
        else { ok := true, errMsg := errMsg, world := run.2, calls := calls }

/-! ## Presentation state -/

/-- The state held by `presentation::state` (PresentationState.cpp). -/
structure PresentationState where
  directory : FilePath
  tabCaption : String
  authorMode : Bool
  slideIndex : Int
deriving DecidableEq, Repr

/-- Modelled from the spec: `presentation::state::isActive` is not under src; "true iff
`directory` is non-empty". -/
def PresentationState.isActive (st : PresentationState) : Bool := !st.directory.empty

/-- Modelled from the spec: `presentation::state::init` is not under src; "on success
replaces any prior state", the slide cursor starting at the first slide. -/
def PresentationState.init (directory : FilePath) (tabCaption : String) (authorMode : Bool) :
    PresentationState :=
  { directory := directory, tabCaption := tabCaption, authorMode := authorMode, slideIndex := 0 }

/-- Modelled from the spec: `presentation::state::asJson` is not under src; the snapshot
"(directory, caption, author mode, slide index)", here the record itself. -/
def PresentationState.asJson (st : PresentationState) : PresentationState := st

/-- Types of client events this module enqueues. -/
inductive ClientEventType where
  | kShowPresentationPane
deriving DecidableEq, Repr

/-- A `ClientEvent(type, data)`. -/
structure ClientEvent where
  type : ClientEventType
  data : PresentationState
deriving DecidableEq, Repr

/-- The constant `kSessionProgramModeServer`. -/
def kSessionProgramModeServer : String := "server"

/-- Result of `rs_showPresentation`: the message handed to `r::exec::error` (if any), the
presentation state and the client event queue after the call. -/
structure ShowOutcome where
  rError : Option String
  state : PresentationState
  queue : List ClientEvent
deriving DecidableEq, Repr

/-- The function `rs_showPresentation(directorySEXP, tabCaptionSEXP, authorModeSEXP)` (lines
58-94); the three arguments are the converted values of the SEXPs, `st` and `queue` the
presentation state and the client event queue on entry. A thrown `RErrorException` is
caught and handed to `r::exec::error`. -/
def rs_showPresentation {W : Type} (env : Env W) (w : W) (st : PresentationState)
    (queue : List ClientEvent) (directory tabCaption : String) (authorMode : Bool) :
    ShowOutcome :=
  if env.programMode = kSessionProgramModeServer then
    -- validate path
    let dir : FilePath := { path := directory }
    if !env.fileExists w dir then
      { rError := some ("Directory " ++ dir.absolutePath ++ " does not exist."),
        state := st, queue := queue }
    else
      -- initialize state
      let st1 := PresentationState.init dir tabCaption authorMode
      -- notify the client
      let event : ClientEvent := { type := .kShowPresentationPane, data := st1.asJson }
      { rError := none, state := st1, queue := queue ++ [event] }
  else
    { rError := some ("Presentations are not supported " ++ "in desktop mode."),
      state := st, queue := queue }

/-! ## handlePresentationPaneRequest -/

/-- Result of a request handler: the response left in `*pResponse` (or the exception that
escaped), the world afterwards and the calls made. -/
structure Outcome (W : Type) where
  response : Except CppException Response
  world : W
  calls : List Call

/-- The function `presentationResourcesPath()` (lines 53-56). -/
def presentationResourcesPath {W : Type} (env : Env W) : FilePath :=
  env.complete env.rResourcesPath "presentation"

/-- The function `mathjaxIfRequired(contents)` (lines 139-145). -/
def mathjaxIfRequired {W : Type} (env : Env W) (contents : String) : String :=
  if env.isMathJaxRequired contents then env.resourceFileAsString "presentation/mathjax.html"
  else ""

/-- The test `boost::algorithm::starts_with(input, test)`. -/
def starts_with (input test : String) : Bool := test.data.isPrefixOf input.data

/-- Lines 300-313 of `handlePresentationPaneRequest`: in author mode, when `slides.Rmd`
exists in the presentation directory, `knitSlides` is run on it (with an empty `errMsg`);
otherwise nothing happens, which is reported here as a successful outcome without calls.
The root branch returns a 500 response when `ok` is false. -/
def knitIfAuthorMode {W : Type} (env : Env W) (w : W) (presDir : FilePath) (authorMode : Bool) :
    KnitOutcome W :=
  if authorMode then
    let rmdFile := env.complete presDir "slides.Rmd"
    if env.fileExists w rmdFile then knitSlides env w rmdFile ""
    else { ok := true, errMsg := "", world := w, calls := [] }
  else { ok := true, errMsg := "", world := w, calls := [] }

/-- The function `handlePresentationPaneRequest(request, pResponse)` (lines 282-413), run
with presentation state `st` in world `w`. -/
def handlePresentationPaneRequest {W : Type} (env : Env W) (w : W) (st : PresentationState)
    (request : Request) (pResponse : Response) : Outcome W :=
  -- return not found if presentation isn't active
  if !st.isActive then
    { response := .ok (pResponse.setError http.status.NotFound (request.uri ++ " not found")),
      world := w, calls := [] }
  else
    -- get the requested path
    let path := env.pathAfterPrefix request "/presentation/"
    -- special handling for the root (process template)
    if path.data.isEmpty then
      -- look for slides.Rmd and knit it if we are in author mode
      let presDir := st.directory
      let knit := knitIfAuthorMode env w presDir st.authorMode
      if !knit.ok then
        { response := .ok (pResponse.setError http.status.InternalServerError knit.errMsg),
          world := knit.world, calls := knit.calls }
      else
        let w1 := knit.world
        -- look for slides.md
        let slidesFile := env.complete presDir "slides.md"
        if !env.fileExists w1 slidesFile then
          { response := .ok (pResponse.setError http.status.NotFound
              ("slides.md file not found in " ++ st.directory.absolutePath)),
            world := w1, calls := knit.calls }
        else
          -- parse the slides
          match env.readSlides w1 slidesFile with
          | .error error =>
            { response := .ok (pResponse.setError http.status.InternalServerError error.summary),
              world := w1, calls := knit.calls ++ [.readSlides slidesFile, .logError error] }
          | .ok slideDeck =>
            -- render the slides
            match env.renderSlides slideDeck with
            | .error error =>
              { response := .ok
                  (pResponse.setError http.status.InternalServerError error.summary),
                world := w1,
                calls := knit.calls ++
                  [.readSlides slidesFile, .renderSlides slideDeck, .logError error] }
            | .ok rendered =>
              -- get user css if it exists
              let cssPath := env.complete st.directory "slides.css"
              let userSlidesCss :=
                if env.fileExists w1 cssPath then
                  "<link rel=\"stylesheet\" href=\"slides.css\">\n"
                else ""
              -- build template variables
              let vars : List (String × String) :=
                [("title", slideDeck.title),
                 ("user_slides_css", userSlidesCss),
                 ("preamble", slideDeck.preamble),
                 ("slides", rendered.slides),
                 ("slide_commands", rendered.slideCommands),
                 ("slides_css", env.resourceFileAsString "presentation/slides.css"),
                 ("r_highlight", env.resourceFileAsString "r_highlight.html"),
                 ("mathjax", mathjaxIfRequired env rendered.slides),
                 ("slides_js", env.resourceFileAsString "presentation/slides.js"),
                 ("reveal_config", rendered.revealConfig),
                 ("init_commands", rendered.initCommands)]
              -- process the template
              let r1 := env.setNoCacheHeaders pResponse
              { response := .ok (r1.setBody
                  (env.templateFilter vars (env.resourceFileAsString "presentation/slides.html"))),
                world := w1,
                calls := knit.calls ++ [.readSlides slidesFile, .renderSlides slideDeck] }
    -- special handling for reveal.js assets
    else if starts_with path "revealjs/" then
      let path1 := env.pathAfterPrefix request "/presentation/revealjs/"
      let filePath := env.complete (presentationResourcesPath env) ("revealjs/" ++ path1)
      { response := .ok (env.setFile w filePath request pResponse), world := w,
        calls := [.setFile filePath] }
    -- special handling for mathjax assets
    else if starts_with path "mathjax/" then
      let filePath := env.childPath (env.parent env.mathjaxPath) path
      { response := .ok (env.setFile w filePath request pResponse), world := w,
        calls := [.setFile filePath] }
    -- serve the file back
    else
      let targetFile := env.childPath st.directory path
      if !(request.headerValue "Range").data.isEmpty then
        { response := handleRangeRequest env w targetFile request pResponse, world := w,
          calls := [.handleRangeRequest targetFile] }
      else
        -- indicate that we accept byte range requests
        let r1 := pResponse.addHeader "Accept-Ranges" "bytes"
        -- return the file
        { response := .ok (env.setFile w targetFile request r1), world := w,
          calls := [.setFile targetFile] }

/-! ## A concrete environment

A small world used to run the handlers on concrete inputs: the disk is a list of
`(path, contents)` entries, `/` separates path components, R reports the knitr check as
recorded in the world, and the subprocess writes `slides.md` next to its source. -/

/-- A concrete world: the files on disk and what the knitr version check reports. -/
structure DemoWorld where
  files : List (String × String)
  knitrOk : Bool
deriving DecidableEq, Repr

/-- A concrete environment over `DemoWorld`. -/
def demoEnv : Env DemoWorld where
  programMode := "server"
  rResourcesPath := { path := "/usr/lib/rstudio/resources" }
  mathjaxPath := { path := "/usr/lib/rstudio/resources/mathjax" }
  defaultEncoding := "UTF-8"
  complete := fun dir name => { path := dir.path ++ "/" ++ name }
  childPath := fun dir name => { path := dir.path ++ "/" ++ name }
  parent := fun p => { path := String.mk ((p.path.data.reverse.dropWhile (· ≠ '/')).drop 1).reverse }
  filename := fun p => String.mk (p.path.data.reverse.takeWhile (· ≠ '/')).reverse
  mimeContentType := fun _ => "application/octet-stream"
  fileExists := fun w p => w.files.any (fun f => f.1 == p.path)
  readStringFromFile := fun w p =>
    match w.files.find? (fun f => f.1 == p.path) with
    | some f => .ok f.2
    | none => .error { summary := "no such file or directory" }
  utf8ToSystem := fun s => s
  runProgram := fun w _ _ _ options =>
    (.ok { exitStatus := 0, stdOut := "", stdErr := "" },
     { w with files := (options.workingDir.path ++ "/slides.md", "Title\n=====\n") :: w.files })
  rScriptPath := fun _ => .ok { path := "/usr/bin/Rscript" }
  callRFunction := fun w _ => .ok w.knitrOk
  pathAfterPrefix := fun request pre =>
    match dropLiteral pre.data request.uri.data with
    | some rest => String.mk rest
    | none => request.uri
  acceptsEncoding := fun request encoding => request.headerValue "Accept-Encoding" == encoding
  setFile := fun w p _ response =>
    match w.files.find? (fun f => f.1 == p.path) with
    | some f => (response.setStatusCode http.status.Ok).setBody f.2
    | none => response.setError http.status.NotFound (p.path ++ " not found")
  setNoCacheHeaders := fun response => response.addHeader "Cache-Control" "no-cache"
  setErrorOf := fun error response =>
    response.setError http.status.InternalServerError error.summary
  templateFilter := fun vars _ => String.join (vars.map (fun v => v.2))
  readSlides := fun _ _ => .ok { title := "Title", preamble := "", source := "" }
  renderSlides := fun deck =>
    .ok { slides := deck.source, revealConfig := "", initCommands := "", slideCommands := "" }
  resourceFileAsString := fun _ => ""
  isMathJaxRequired := fun _ => false

/-- A resource of 1000 bytes: the digits `0123456789` a hundred times over, so the byte at
offset `i` is the last decimal digit of `i`. -/
def thousandBytes : String :=
  String.mk ((List.range 1000).map (fun i => Char.ofNat (48 + i % 10)))

/-- A world whose presentation directory `/pres` holds the 1000-byte file `/pres/movie.mp4`
and no slides. -/
def movieWorld : DemoWorld :=
  { files := [("/pres", ""), ("/pres/movie.mp4", thousandBytes)], knitrOk := true }

/-- The file `/pres/movie.mp4`. -/
def movieFile : FilePath := { path := "/pres/movie.mp4" }

/-- A request for `/presentation/movie.mp4` with the given `Range` header value. -/
def rangeRequest (range : String) : Request :=
  { uri := "/presentation/movie.mp4", headers := [("Range", range)] }

/-- A fresh response: status 200, no header fields, no body. -/
def emptyResponse : Response := { statusCode := 200, headers := [], body := "" }

/-- A world whose presentation directory `/pres` holds `slides.Rmd` but no `slides.md`, and
where the knitr version check reports false. -/
def oldKnitrWorld : DemoWorld :=
  { files := [("/pres", ""), ("/pres/slides.Rmd", "Title\n=====\n")], knitrOk := false }

/-- An active presentation on `/pres` in author mode. -/
def authorState : PresentationState :=
  { directory := { path := "/pres" }, tabCaption := "Slides", authorMode := true, slideIndex := 3 }

/-- An active presentation on `/pres`, not in author mode. -/
def viewerState : PresentationState :=
  { directory := { path := "/pres" }, tabCaption := "Slides", authorMode := false, slideIndex := 3 }

/-- The inactive presentation state (empty directory). -/
def inactiveState : PresentationState :=
  { directory := { path := "" }, tabCaption := "", authorMode := false, slideIndex := 0 }

/-- The root request `/presentation/`. -/
def rootRequest : Request := { uri := "/presentation/", headers := [] }

/-- A request for `/presentation/movie.mp4` without a `Range` header. -/
def plainRequest : Request := { uri := "/presentation/movie.mp4", headers := [] }

/-! ## size_t arithmetic facts -/

theorem sizeSub_of_le (a b : Nat) (hba : b ≤ a) (ha : a < sizeMod) : sizeSub a b = a - b := by
  unfold sizeSub sizeMod at *
  omega

theorem dropLiteral_eq_some (pre s rest : List Char) :
    dropLiteral pre s = some rest ↔ s = pre ++ rest := by
  induction pre generalizing s with
  | nil => simp [dropLiteral, eq_comm]
  | cons p ps ih =>
    cases s with
    | nil => simp [dropLiteral]
    | cons c cs =>
      by_cases h : p = c
      · subst h; simp [dropLiteral, ih]
      · simp [dropLiteral, h, Ne.symm h]

theorem takeWhile_digits_append (d1 d2 : List Char) (h1 : ∀ c ∈ d1, c.isDigit = true) :
    (d1 ++ '-' :: d2).takeWhile Char.isDigit = d1 ∧
    (d1 ++ '-' :: d2).dropWhile Char.isDigit = '-' :: d2 := by
  induction d1 with
  | nil =>
    have : Char.isDigit '-' = false := by decide
    simp [List.takeWhile, List.dropWhile, this]
  | cons c cs ih =>
    have hc : c.isDigit = true := h1 c (List.mem_cons_self _ _)
    have ih := ih (fun x hx => h1 x (List.mem_cons_of_mem _ hx))
    simp [List.takeWhile, List.dropWhile, hc, ih.1, ih.2]

theorem regex_match_eq_some (range m1 m2 : String) :
    regex_match range = some (m1, m2) ↔
      (∀ c ∈ m1.data, c.isDigit = true) ∧ (∀ c ∈ m2.data, c.isDigit = true) ∧
        range.data = "bytes=".data ++ m1.data ++ '-' :: m2.data := by
  constructor
  · intro h
    unfold regex_match at h
    split at h
    · exact absurd h (by simp)
    · next rest hrest =>
      split at h
      · next d2 hd2 =>
        split at h
        · next hall =>
          simp only [Option.some.injEq, Prod.mk.injEq] at h
          obtain ⟨h1, h2⟩ := h
          subst h1; subst h2
          refine ⟨?_, ?_, ?_⟩
          · intro c hc
            exact (List.mem_takeWhile_imp hc)
          · simpa [List.all_eq_true] using hall
          · rw [dropLiteral_eq_some] at hrest
            rw [hrest, List.append_assoc]
            congr 1
            have := List.takeWhile_append_dropWhile Char.isDigit rest
            rw [hd2] at this
            exact this.symm
        · exact absurd h (by simp)
      · exact absurd h (by simp)
  · rintro ⟨h1, h2, h3⟩
    unfold regex_match
    have hdrop : dropLiteral "bytes=".data range.data = some (m1.data ++ '-' :: m2.data) := by
      rw [dropLiteral_eq_some, h3, List.append_assoc]
    obtain ⟨ht, hd⟩ := takeWhile_digits_append m1.data m2.data h1
    have hall : m2.data.all Char.isDigit = true := by simpa [List.all_eq_true] using h2
    simp only [hdrop, hd, ht, hall, if_true]

theorem regex_match_isSome_iff (range : String) :
    (regex_match range).isSome = true ↔ MatchesRangePattern range := by
  constructor
  · intro h
    obtain ⟨m, hm⟩ := Option.isSome_iff_exists.mp h
    obtain ⟨m1, m2⟩ := m
    obtain ⟨h1, h2, h3⟩ := (regex_match_eq_some range m1 m2).mp hm
    exact ⟨m1.data, m2.data, h1, h2, h3⟩
  · rintro ⟨d1, d2, h1, h2, h3⟩
    have := (regex_match_eq_some range (String.mk d1) (String.mk d2)).mpr ⟨h1, h2, h3⟩
    simp [this]

theorem regex_match_eq_none_iff (range : String) :
    regex_match range = none ↔ ¬ MatchesRangePattern range := by
  rw [← regex_match_isSome_iff]
  cases regex_match range <;> simp


/-! ## The byte-range handler -/

/-- Unfolding of `handleRangeRequest` on a matching header: a response `r6` with status 206
and the `Content-Range` field is built, and the body is then set from the whole contents
or from `substr`. -/
theorem handleRangeRequest_of_match {W : Type} (env : Env W) (w : W)
    (targetFile : FilePath) (request : Request) (pResponse : Response) (contents m1 m2 : String)
    (hread : env.readStringFromFile w targetFile = .ok contents)
    (hmatch : regex_match (request.headerValue "Range") = some (m1, m2)) :
    ∃ r6 : Response,
      handleRangeRequest env w targetFile request pResponse =
        (if (byteRange m1 m2 contents.length).1 = 0 ∧
            (byteRange m1 m2 contents.length).2 = sizeSub contents.length 1
         then .ok (r6.setBody contents)
         else match substr contents (byteRange m1 m2 contents.length).1
            (sizeSub (byteRange m1 m2 contents.length).2 (byteRange m1 m2 contents.length).1) with
          | .ok slice => .ok (r6.setBody slice)
          | .error e => .error e) ∧
      (∀ body, (r6.setBody body).statusCode = 206) ∧
      (∀ body, ("Content-Range", contentRangeValue (byteRange m1 m2 contents.length).1
        (byteRange m1 m2 contents.length).2 contents.length) ∈ (r6.setBody body).headers) := by
  refine ⟨if env.acceptsEncoding request kGzipEncoding = true then
      ((((pResponse.setContentType (env.mimeContentType targetFile)).setStatusCode
        http.status.PartialContent).addHeader "Accept-Ranges" "bytes").addHeader "Content-Range"
          (contentRangeValue (byteRange m1 m2 contents.length).1
            (byteRange m1 m2 contents.length).2 contents.length)).setContentEncoding kGzipEncoding
    else
      (((pResponse.setContentType (env.mimeContentType targetFile)).setStatusCode
        http.status.PartialContent).addHeader "Accept-Ranges" "bytes").addHeader "Content-Range"
          (contentRangeValue (byteRange m1 m2 contents.length).1
            (byteRange m1 m2 contents.length).2 contents.length), ?_, ?_, ?_⟩
  · simp only [handleRangeRequest, hread, hmatch]
  · intro body
    by_cases hgz : env.acceptsEncoding request kGzipEncoding = true <;>
      simp [hgz, Response.setBody, Response.addHeader, Response.setStatusCode,
        Response.setContentEncoding, Response.setContentType, http.status.PartialContent]
  · intro body
    by_cases hgz : env.acceptsEncoding request kGzipEncoding = true <;>
      simp [hgz, Response.setBody, Response.addHeader, Response.setStatusCode,
        Response.setContentEncoding, Response.setContentType]

/-- The slice `handleRangeRequest` returns is one byte short. When the header matches and
the computed offsets satisfy `begin ≤ end < total` without covering the whole resource,
the body is `substr(begin, end - begin)`: the `end - begin` bytes at offsets
`begin .. end - 1`. -/
theorem handleRangeRequest_slice_length {W : Type} (env : Env W) (w : W)
    (targetFile : FilePath) (request : Request) (pResponse : Response) (contents m1 m2 : String)
    (b e : Nat)
    (hread : env.readStringFromFile w targetFile = .ok contents)
    (hmatch : regex_match (request.headerValue "Range") = some (m1, m2))
    (hrange : byteRange m1 m2 contents.length = (b, e))
    (hle : b ≤ e) (hlt : e < contents.length) (hsize : contents.length < sizeMod)
    (hpart : ¬ (b = 0 ∧ e = contents.length - 1)) :
    ∃ r, handleRangeRequest env w targetFile request pResponse = .ok r ∧
      r.body = String.mk ((contents.data.drop b).take (e - b)) ∧
      r.body.length = e - b := by
  obtain ⟨r6, hr6, -, -⟩ := handleRangeRequest_of_match env w targetFile request
    pResponse contents m1 m2 hread hmatch
  have hone : sizeSub contents.length 1 = contents.length - 1 :=
    sizeSub_of_le _ _ (by omega) hsize
  have hsub : sizeSub e b = e - b := sizeSub_of_le _ _ hle (by omega)
  have hpos : ¬ contents.length < b := by omega
  have hlen : contents.data.length = contents.length := rfl
  refine ⟨r6.setBody (String.mk ((contents.data.drop b).take (e - b))), ?_, rfl, ?_⟩
  · rw [hr6, hrange]
    simp only [hone, hsub, if_neg hpart, substr, hpos, if_false]
  · show ((contents.data.drop b).take (e - b)).length = e - b
    rw [List.length_take, List.length_drop, hlen]
    omega

/-- C1, evaluated at the specification's example. Resource of 1000 bytes, `Range: bytes=100-199`:
the response is 206 with `Content-Range: bytes 100-199/1000`, but the body is
`substr(100, 99)`, the 99 bytes at offsets 100..198, and not the 100 bytes at offsets
100..199 that the header announces. -/
theorem handleRangeRequest_bytes_100_199 :
    handleRangeRequest demoEnv movieWorld movieFile (rangeRequest "bytes=100-199") emptyResponse
      = .ok { statusCode := 206,
              headers := [("Content-Type", "application/octet-stream"),
                          ("Accept-Ranges", "bytes"),
                          ("Content-Range", "bytes 100-199/1000")],
              body := String.mk ((thousandBytes.data.drop 100).take 99) } ∧
    thousandBytes.length = 1000 ∧
    (String.mk ((thousandBytes.data.drop 100).take 99)).length = 99 ∧
    (String.mk ((thousandBytes.data.drop 100).take (199 - 100 + 1))).length = 100 ∧
    String.mk ((thousandBytes.data.drop 100).take 99) ≠
      String.mk ((thousandBytes.data.drop 100).take (199 - 100 + 1)) := by
  decide!

/-- C2, evaluated at the specification's example. Resource of 1000 bytes, `Range: bytes=-50`:
the response is 206 with `Content-Range: bytes 950-999/1000`, but the body is
`substr(950, 49)`, the 49 bytes at offsets 950..998, and not the last 50 bytes. -/
theorem handleRangeRequest_bytes_suffix_50 :
    handleRangeRequest demoEnv movieWorld movieFile (rangeRequest "bytes=-50") emptyResponse
      = .ok { statusCode := 206,
              headers := [("Content-Type", "application/octet-stream"),
                          ("Accept-Ranges", "bytes"),
                          ("Content-Range", "bytes 950-999/1000")],
              body := String.mk ((thousandBytes.data.drop 950).take 49) } ∧
    thousandBytes.length = 1000 ∧
    (String.mk ((thousandBytes.data.drop 950).take 49)).length = 49 ∧
    (String.mk (thousandBytes.data.drop (1000 - 50))).length = 50 ∧
    String.mk ((thousandBytes.data.drop 950).take 49) ≠
      String.mk (thousandBytes.data.drop (1000 - 50)) := by
  decide!

/-- C3, evaluated at a failing input. Resource of 1000 bytes, `Range: bytes=900-`: the
response is 206 with `Content-Range: bytes 900-999/1000`, but the body is
`substr(900, 99)`, the 99 bytes at offsets 900..998, and not the 100 bytes that run to the
end of the file. -/
theorem handleRangeRequest_bytes_900_open :
    handleRangeRequest demoEnv movieWorld movieFile (rangeRequest "bytes=900-") emptyResponse
      = .ok { statusCode := 206,
              headers := [("Content-Type", "application/octet-stream"),
                          ("Accept-Ranges", "bytes"),
                          ("Content-Range", "bytes 900-999/1000")],
              body := String.mk ((thousandBytes.data.drop 900).take 99) } ∧
    thousandBytes.length = 1000 ∧
    (String.mk ((thousandBytes.data.drop 900).take 99)).length = 99 ∧
    (String.mk (thousandBytes.data.drop 900)).length = 1000 - 900 ∧
    String.mk ((thousandBytes.data.drop 900).take 99) ≠
      String.mk (thousandBytes.data.drop 900) := by
  decide!

/-- C4. When the file is read (its contents have length `total`) and the `Range` header
value does not wholly match `bytes=<digits*>-<digits*>`, `handleRangeRequest` yields a
response with status 416 whose header fields are those it had on entry followed by the
content type and `Content-Range: bytes */<total>`; the body is not touched (empty for a
fresh response) and no `Accept-Ranges` field is added. -/
theorem handleRangeRequest_unmatched_416 {W : Type} (env : Env W) (w : W)
    (targetFile : FilePath) (request : Request) (pResponse : Response) (contents : String)
    (hread : env.readStringFromFile w targetFile = .ok contents)
    (hpattern : ¬ MatchesRangePattern (request.headerValue "Range")) :
    ∃ r, handleRangeRequest env w targetFile request pResponse = .ok r ∧
      r.statusCode = 416 ∧
      r.headers = pResponse.headers ++
        [("Content-Type", env.mimeContentType targetFile),
         ("Content-Range", "bytes */" ++ toString contents.length)] ∧
      r.body = pResponse.body ∧
      (∀ v, ("Accept-Ranges", v) ∈ r.headers → ("Accept-Ranges", v) ∈ pResponse.headers) := by
  have hnone := (regex_match_eq_none_iff _).mpr hpattern
  have heq : handleRangeRequest env w targetFile request pResponse =
      .ok (((pResponse.setContentType (env.mimeContentType targetFile)).setStatusCode
        http.status.RangeNotSatisfiable).addHeader "Content-Range"
          (unsatisfiedRangeValue contents.length)) := by
    simp only [handleRangeRequest, hread, hnone]
  refine ⟨_, heq, rfl, ?_, rfl, ?_⟩
  · simp [Response.addHeader, Response.setStatusCode, Response.setContentType,
      unsatisfiedRangeValue]
  · intro v hv
    simpa [Response.addHeader, Response.setStatusCode, Response.setContentType] using hv

/-- Concrete instance: the 1000-byte resource and `Range: bytes=abc-def`. -/
theorem handleRangeRequest_unmatched_416_witness :
    demoEnv.readStringFromFile movieWorld movieFile = .ok thousandBytes ∧
    ¬ MatchesRangePattern ((rangeRequest "bytes=abc-def").headerValue "Range") ∧
    ∃ r, handleRangeRequest demoEnv movieWorld movieFile (rangeRequest "bytes=abc-def")
        emptyResponse = .ok r ∧
      r.statusCode = 416 ∧
      r.headers = emptyResponse.headers ++
        [("Content-Type", demoEnv.mimeContentType movieFile),
         ("Content-Range", "bytes */" ++ toString thousandBytes.length)] ∧
      r.body = emptyResponse.body ∧
      (∀ v, ("Accept-Ranges", v) ∈ r.headers → ("Accept-Ranges", v) ∈ emptyResponse.headers) :=
  ⟨by decide!, (regex_match_eq_none_iff _).mp (by decide!),
   handleRangeRequest_unmatched_416 demoEnv movieWorld movieFile (rangeRequest "bytes=abc-def")
     emptyResponse thousandBytes (by decide!) ((regex_match_eq_none_iff _).mp (by decide!))⟩

/-- The calls of `knitSlides` contain no `runProgram` when the knitr version check reports
false. -/
theorem knitSlides_old_knitr {W : Type} (env : Env W) (w : W) (slidesRmd : FilePath)
    (errMsg : String) (hknitr : (hasKnitrVersion1 env w).1 = false) :
    (knitSlides env w slidesRmd errMsg).ok = false ∧
    ∀ c ∈ (knitSlides env w slidesRmd errMsg).calls, c.isRunProgram = false := by
  unfold knitSlides
  cases hpath : env.rScriptPath w with
  | error e => simp
  | ok rProgramPath =>
    simp only [hknitr, Bool.not_false, if_true, true_and]
    intro c hc
    unfold hasKnitrVersion1 at hc
    cases hcall : env.callRFunction w ".rs.hasKnitrVersion1" with
    | error e =>
      simp only [hcall, List.mem_cons, List.mem_singleton, List.not_mem_nil, or_false] at hc
      rcases hc with rfl | rfl <;> rfl
    | ok b =>
      simp only [hcall, List.mem_singleton] at hc
      subst hc; rfl

/-- C6. When the presentation state is inactive, `handlePresentationPaneRequest` answers
every request (whatever its uri and header fields) with the 404 error response
`<uri> not found`, leaves the world as it was and calls no collaborator: no rendering, no
subprocess, no file serving. -/
theorem handlePresentationPaneRequest_inactive {W : Type} (env : Env W) (w : W)
    (st : PresentationState) (request : Request) (pResponse : Response)
    (hinactive : st.isActive = false) :
    (handlePresentationPaneRequest env w st request pResponse).response =
      .ok (pResponse.setError http.status.NotFound (request.uri ++ " not found")) ∧
    (pResponse.setError http.status.NotFound (request.uri ++ " not found")).statusCode = 404 ∧
    (handlePresentationPaneRequest env w st request pResponse).calls = [] ∧
    (handlePresentationPaneRequest env w st request pResponse).world = w := by
  simp [handlePresentationPaneRequest, hinactive, Response.setError, Response.setBody,
    Response.setStatusCode, http.status.NotFound]

/-- Concrete instance: no active presentation, a request for a file with a `Range`
header. -/
theorem handlePresentationPaneRequest_inactive_witness :
    inactiveState.isActive = false ∧
    ((handlePresentationPaneRequest demoEnv movieWorld inactiveState (rangeRequest "bytes=0-9")
        emptyResponse).response =
      .ok (emptyResponse.setError http.status.NotFound
        ((rangeRequest "bytes=0-9").uri ++ " not found")) ∧
    (emptyResponse.setError http.status.NotFound
      ((rangeRequest "bytes=0-9").uri ++ " not found")).statusCode = 404 ∧
    (handlePresentationPaneRequest demoEnv movieWorld inactiveState (rangeRequest "bytes=0-9")
        emptyResponse).calls = [] ∧
    (handlePresentationPaneRequest demoEnv movieWorld inactiveState (rangeRequest "bytes=0-9")
        emptyResponse).world = movieWorld) :=
  ⟨by decide,
   handlePresentationPaneRequest_inactive demoEnv movieWorld inactiveState
     (rangeRequest "bytes=0-9") emptyResponse (by decide)⟩

/-- C8. On a root request of an active presentation in author mode, when `slides.Rmd`
exists and `hasKnitrVersion1` reports false, the response is a 500 and no `runProgram`
call is made. -/
theorem handlePresentationPaneRequest_old_knitr {W : Type} (env : Env W) (w : W)
    (st : PresentationState) (request : Request) (pResponse : Response)
    (hactive : st.isActive = true)
    (hroot : (env.pathAfterPrefix request "/presentation/").data.isEmpty = true)
    (hauthor : st.authorMode = true)
    (hrmd : env.fileExists w (env.complete st.directory "slides.Rmd") = true)
    (hknitr : (hasKnitrVersion1 env w).1 = false) :
    (∃ r, (handlePresentationPaneRequest env w st request pResponse).response = .ok r ∧
      r.statusCode = 500) ∧
    ∀ c ∈ (handlePresentationPaneRequest env w st request pResponse).calls,
      c.isRunProgram = false := by
  obtain ⟨hok, hcalls⟩ :=
    knitSlides_old_knitr env w (env.complete st.directory "slides.Rmd") "" hknitr
  have hk : knitIfAuthorMode env w st.directory st.authorMode =
      knitSlides env w (env.complete st.directory "slides.Rmd") "" := by
    simp [knitIfAuthorMode, hauthor, hrmd]
  constructor
  · refine ⟨pResponse.setError http.status.InternalServerError
      (knitSlides env w (env.complete st.directory "slides.Rmd") "").errMsg, ?_, rfl⟩
    simp [handlePresentationPaneRequest, hactive, hroot, hk, hok]
  · intro c hc
    apply hcalls c
    simpa [handlePresentationPaneRequest, hactive, hroot, hk, hok] using hc

/-- Concrete instance: author mode on `/pres`, which holds `slides.Rmd`, with an old
knitr. -/
theorem handlePresentationPaneRequest_old_knitr_witness :
    authorState.isActive = true ∧
    (demoEnv.pathAfterPrefix rootRequest "/presentation/").data.isEmpty = true ∧
    authorState.authorMode = true ∧
    demoEnv.fileExists oldKnitrWorld (demoEnv.complete authorState.directory "slides.Rmd") = true ∧
    (hasKnitrVersion1 demoEnv oldKnitrWorld).1 = false ∧
    ((∃ r, (handlePresentationPaneRequest demoEnv oldKnitrWorld authorState rootRequest
        emptyResponse).response = .ok r ∧ r.statusCode = 500) ∧
     ∀ c ∈ (handlePresentationPaneRequest demoEnv oldKnitrWorld authorState rootRequest
        emptyResponse).calls, c.isRunProgram = false) :=
  ⟨by decide, by decide!, by decide, by decide!, by decide!,
   handlePresentationPaneRequest_old_knitr demoEnv oldKnitrWorld authorState rootRequest
     emptyResponse (by decide) (by decide!) (by decide) (by decide!) (by decide!)⟩

/-- C9. When the directory handed to `rs_showPresentation` does not exist, the call signals
an R error, the presentation state (directory, tab caption, author mode, slide index) is
the one on entry, and the client event queue is the one on entry: no show-presentation
event is enqueued. In server mode the error message is
`Directory <path> does not exist.`. -/
theorem rs_showPresentation_missing_directory {W : Type} (env : Env W) (w : W)
    (st : PresentationState) (queue : List ClientEvent) (directory tabCaption : String)
    (authorMode : Bool)
    (hmissing : env.fileExists w { path := directory } = false) :
    (rs_showPresentation env w st queue directory tabCaption authorMode).rError.isSome = true ∧
    (rs_showPresentation env w st queue directory tabCaption authorMode).state = st ∧
    (rs_showPresentation env w st queue directory tabCaption authorMode).queue = queue ∧
    (env.programMode = kSessionProgramModeServer →
      (rs_showPresentation env w st queue directory tabCaption authorMode).rError =
        some ("Directory " ++ directory ++ " does not exist.")) := by
  by_cases hmode : env.programMode = kSessionProgramModeServer
  · simp [rs_showPresentation, hmode, hmissing, FilePath.absolutePath]
  · simp [rs_showPresentation, hmode]

/-- Concrete instance: an active presentation at slide 3 and a call for `/nowhere`. -/
theorem rs_showPresentation_missing_directory_witness :
    demoEnv.fileExists movieWorld { path := "/nowhere" } = false ∧
    ((rs_showPresentation demoEnv movieWorld viewerState [] "/nowhere" "Deck" true).rError.isSome
      = true ∧
    (rs_showPresentation demoEnv movieWorld viewerState [] "/nowhere" "Deck" true).state
      = viewerState ∧
    (rs_showPresentation demoEnv movieWorld viewerState [] "/nowhere" "Deck" true).queue = [] ∧
    (demoEnv.programMode = kSessionProgramModeServer →
      (rs_showPresentation demoEnv movieWorld viewerState [] "/nowhere" "Deck" true).rError =
        some ("Directory " ++ "/nowhere" ++ " does not exist."))) :=
  ⟨by decide!,
   rs_showPresentation_missing_directory demoEnv movieWorld viewerState [] "/nowhere" "Deck" true
     (by decide!)⟩

/-- The calls of `knitSlides` are R function calls, log entries and `runProgram`: none of
them serves a file. -/
theorem knitSlides_calls_not_serving {W : Type} (env : Env W) (w : W) (slidesRmd : FilePath)
    (errMsg : String) :
    ∀ c ∈ (knitSlides env w slidesRmd errMsg).calls, c.isFileServing = false := by
  have hv : ∀ c ∈ (hasKnitrVersion1 env w).2, c.isFileServing = false := by
    intro c hc
    unfold hasKnitrVersion1 at hc
    cases hcall : env.callRFunction w ".rs.hasKnitrVersion1" with
    | error e =>
      simp only [hcall, List.mem_cons, List.mem_singleton, List.not_mem_nil, or_false] at hc
      rcases hc with rfl | rfl <;> rfl
    | ok b =>
      simp only [hcall, List.mem_singleton] at hc
      subst hc; rfl
  intro c hc
  unfold knitSlides at hc
  cases hpath : env.rScriptPath w with
  | error e => simp [hpath] at hc
  | ok rProgramPath =>
    simp only [hpath] at hc
    split at hc
    · exact hv c hc
    · split at hc
      all_goals
        first
        | (split at hc
           all_goals
             simp only [List.mem_append, List.mem_singleton] at hc
             rcases hc with hc | rfl
             · exact hv c hc
             · rfl)
        | (simp only [List.mem_append, List.mem_singleton] at hc
           rcases hc with hc | rfl
           · exact hv c hc
           · rfl)

/-- The calls of the pre-processing step serve no file. -/
theorem knitIfAuthorMode_calls_not_serving {W : Type} (env : Env W) (w : W) (presDir : FilePath)
    (authorMode : Bool) :
    ∀ c ∈ (knitIfAuthorMode env w presDir authorMode).calls, c.isFileServing = false := by
  intro c hc
  unfold knitIfAuthorMode at hc
  split at hc
  · simp only at hc
    split at hc
    · exact knitSlides_calls_not_serving env w _ _ c hc
    · simp at hc
  · simp at hc

/-- The root branch serves no file: none of its calls is a `setFile` or a
`handleRangeRequest`. -/
theorem handlePresentationPaneRequest_root_not_serving {W : Type} (env : Env W) (w : W)
    (st : PresentationState) (request : Request) (pResponse : Response)
    (hactive : st.isActive = true)
    (hroot : (env.pathAfterPrefix request "/presentation/").data.isEmpty = true) :
    ∀ c ∈ (handlePresentationPaneRequest env w st request pResponse).calls,
      c.isFileServing = false := by
  have hk := knitIfAuthorMode_calls_not_serving env w st.directory st.authorMode
  intro c hc
  simp only [handlePresentationPaneRequest, hactive, hroot, Bool.not_true, if_true,
    Bool.false_eq_true, if_false] at hc
  split at hc
  · exact hk c hc
  · split at hc
    · exact hk c hc
    · split at hc
      · simp only [List.mem_append, List.mem_cons, List.mem_singleton, List.not_mem_nil,
          or_false] at hc
        rcases hc with hc | rfl | rfl
        · exact hk c hc
        · rfl
        · rfl
      · split at hc
        · simp only [List.mem_append, List.mem_cons, List.mem_singleton, List.not_mem_nil,
            or_false] at hc
          rcases hc with hc | rfl | rfl | rfl
          · exact hk c hc
          · rfl
          · rfl
          · rfl
        · simp only [List.mem_append, List.mem_cons, List.mem_singleton, List.not_mem_nil,
            or_false] at hc
          rcases hc with hc | rfl | rfl
          · exact hk c hc
          · rfl
          · rfl

/-- C7. For an active presentation, with `path` the request path after `/presentation/`:
* if `path` is non-empty and begins with neither `revealjs/` nor `mathjax/`, the target is
  `path` resolved against the presentation directory; with a non-empty `Range` header the
  outcome is that of `handleRangeRequest` on the target; with an empty one the header
  `Accept-Ranges: bytes` is added and the file is served by `setFile`, so the response
  carries that header as long as `setFile` keeps the header fields it is given;
* if `path` begins with `revealjs/`, the only call is `setFile` on the bundled resource;
* if `path` begins with `mathjax/` (and not with `revealjs/`), the only call is `setFile`
  on the path resolved against the parent of the MathJax directory;
* if `path` is empty, no file is served at all;
and in the last three cases no call is a `handleRangeRequest`, whatever the `Range`
header. -/
theorem handlePresentationPaneRequest_dispatch {W : Type} (env : Env W) (w : W)
    (st : PresentationState) (request : Request) (pResponse : Response) (path : String)
    (hactive : st.isActive = true)
    (hpath : env.pathAfterPrefix request "/presentation/" = path) :
    -- relative assets
    (path.data.isEmpty = false → starts_with path "revealjs/" = false →
      starts_with path "mathjax/" = false →
      ((request.headerValue "Range").data.isEmpty = false →
        (handlePresentationPaneRequest env w st request pResponse).response =
          handleRangeRequest env w (env.childPath st.directory path) request pResponse ∧
        (handlePresentationPaneRequest env w st request pResponse).calls =
          [.handleRangeRequest (env.childPath st.directory path)]) ∧
      ((request.headerValue "Range").data.isEmpty = true →
        (handlePresentationPaneRequest env w st request pResponse).response =
          .ok (env.setFile w (env.childPath st.directory path) request
            (pResponse.addHeader "Accept-Ranges" "bytes")) ∧
        ("Accept-Ranges", "bytes") ∈ (pResponse.addHeader "Accept-Ranges" "bytes").headers ∧
        (handlePresentationPaneRequest env w st request pResponse).calls =
          [.setFile (env.childPath st.directory path)] ∧
        ((∀ file r, ∀ h ∈ r.headers, h ∈ (env.setFile w file request r).headers) →
          ∃ r, (handlePresentationPaneRequest env w st request pResponse).response = .ok r ∧
            ("Accept-Ranges", "bytes") ∈ r.headers))) ∧
    -- reveal.js assets
    (path.data.isEmpty = false → starts_with path "revealjs/" = true →
      (handlePresentationPaneRequest env w st request pResponse).response =
        .ok (env.setFile w (env.complete (presentationResourcesPath env)
          ("revealjs/" ++ env.pathAfterPrefix request "/presentation/revealjs/")) request
          pResponse) ∧
      (handlePresentationPaneRequest env w st request pResponse).calls =
        [.setFile (env.complete (presentationResourcesPath env)
          ("revealjs/" ++ env.pathAfterPrefix request "/presentation/revealjs/"))]) ∧
    -- mathjax assets
    (path.data.isEmpty = false → starts_with path "revealjs/" = false →
      starts_with path "mathjax/" = true →
      (handlePresentationPaneRequest env w st request pResponse).response =
        .ok (env.setFile w (env.childPath (env.parent env.mathjaxPath) path) request
          pResponse) ∧
      (handlePresentationPaneRequest env w st request pResponse).calls =
        [.setFile (env.childPath (env.parent env.mathjaxPath) path)]) ∧
    -- the root
    (path.data.isEmpty = true →
      ∀ c ∈ (handlePresentationPaneRequest env w st request pResponse).calls,
        c.isFileServing = false) ∧
    -- no range handling outside relative assets
    ((path.data.isEmpty = true ∨ starts_with path "revealjs/" = true ∨
        starts_with path "mathjax/" = true) →
      ∀ c ∈ (handlePresentationPaneRequest env w st request pResponse).calls,
        c.isHandleRangeRequest = false) := by
  subst hpath
  have hroot : (env.pathAfterPrefix request "/presentation/").data.isEmpty = true →
      ∀ c ∈ (handlePresentationPaneRequest env w st request pResponse).calls,
        c.isFileServing = false :=
    fun h => handlePresentationPaneRequest_root_not_serving env w st request pResponse hactive h
  have hreveal : (env.pathAfterPrefix request "/presentation/").data.isEmpty = false →
      starts_with (env.pathAfterPrefix request "/presentation/") "revealjs/" = true →
      (handlePresentationPaneRequest env w st request pResponse).response =
        .ok (env.setFile w (env.complete (presentationResourcesPath env)
          ("revealjs/" ++ env.pathAfterPrefix request "/presentation/revealjs/")) request
          pResponse) ∧
      (handlePresentationPaneRequest env w st request pResponse).calls =
        [.setFile (env.complete (presentationResourcesPath env)
          ("revealjs/" ++ env.pathAfterPrefix request "/presentation/revealjs/"))] := by
    intro hne hrev
    simp [handlePresentationPaneRequest, hactive, hne, hrev]
  have hmathjax : (env.pathAfterPrefix request "/presentation/").data.isEmpty = false →
      starts_with (env.pathAfterPrefix request "/presentation/") "revealjs/" = false →
      starts_with (env.pathAfterPrefix request "/presentation/") "mathjax/" = true →
      (handlePresentationPaneRequest env w st request pResponse).response =
        .ok (env.setFile w (env.childPath (env.parent env.mathjaxPath)
          (env.pathAfterPrefix request "/presentation/")) request pResponse) ∧
      (handlePresentationPaneRequest env w st request pResponse).calls =
        [.setFile (env.childPath (env.parent env.mathjaxPath)
          (env.pathAfterPrefix request "/presentation/"))] := by
    intro hne hrev hmj
    simp [handlePresentationPaneRequest, hactive, hne, hrev, hmj]
  refine ⟨?_, hreveal, hmathjax, hroot, ?_⟩
  · intro hne hrev hmj
    constructor
    · intro hrange
      simp [handlePresentationPaneRequest, hactive, hne, hrev, hmj, hrange]
    · intro hrange
      have hresp : (handlePresentationPaneRequest env w st request pResponse).response =
          .ok (env.setFile w (env.childPath st.directory
            (env.pathAfterPrefix request "/presentation/")) request
            (pResponse.addHeader "Accept-Ranges" "bytes")) := by
        simp [handlePresentationPaneRequest, hactive, hne, hrev, hmj, hrange]
      refine ⟨hresp, by simp [Response.addHeader], ?_, ?_⟩
      · simp [handlePresentationPaneRequest, hactive, hne, hrev, hmj, hrange]
      · intro hkeep
        exact ⟨_, hresp, hkeep _ _ _ (by simp [Response.addHeader])⟩
  · intro hcase c hc
    by_cases hempty : (env.pathAfterPrefix request "/presentation/").data.isEmpty = true
    · have := hroot hempty c hc
      cases c <;> simp_all [Call.isFileServing, Call.isHandleRangeRequest]
    · have hne : (env.pathAfterPrefix request "/presentation/").data.isEmpty = false := by
        simpa using hempty
      by_cases hrev : starts_with (env.pathAfterPrefix request "/presentation/") "revealjs/" = true
      · rw [(hreveal hne hrev).2] at hc
        simp only [List.mem_singleton] at hc
        subst hc; rfl
      · have hrev2 : starts_with (env.pathAfterPrefix request "/presentation/") "revealjs/"
            = false := by simpa using hrev
        have hmj : starts_with (env.pathAfterPrefix request "/presentation/") "mathjax/"
            = true := by
          rcases hcase with h | h | h
          · exact absurd h hempty
          · exact absurd h hrev
          · exact h
        rw [(hmathjax hne hrev2 hmj).2] at hc
        simp only [List.mem_singleton] at hc
        subst hc; rfl

/-- Concrete instance of the dispatch: an active presentation on `/pres` and a request for
`/presentation/movie.mp4` with `Range: bytes=0-9` is handed to `handleRangeRequest` on
`/pres/movie.mp4`. -/
theorem handlePresentationPaneRequest_dispatch_witness :
    viewerState.isActive = true ∧
    demoEnv.pathAfterPrefix (rangeRequest "bytes=0-9") "/presentation/" = "movie.mp4" ∧
    ((handlePresentationPaneRequest demoEnv movieWorld viewerState (rangeRequest "bytes=0-9")
        emptyResponse).response =
      handleRangeRequest demoEnv movieWorld (demoEnv.childPath viewerState.directory "movie.mp4")
        (rangeRequest "bytes=0-9") emptyResponse ∧
     (handlePresentationPaneRequest demoEnv movieWorld viewerState (rangeRequest "bytes=0-9")
        emptyResponse).calls =
      [.handleRangeRequest (demoEnv.childPath viewerState.directory "movie.mp4")]) :=
  ⟨by decide, by decide!,
   ((handlePresentationPaneRequest_dispatch demoEnv movieWorld viewerState
      (rangeRequest "bytes=0-9") emptyResponse "movie.mp4" (by decide) (by decide!)).1
      (by decide!) (by decide!) (by decide!)).1 (by decide!)⟩

end Presentation
